import Mathlib

/-!
Shallow embedding of the ESPResSo integrator subsystem exercised by
`testsuite/python/integrator_exceptions.py` and
`testsuite/python/lb_pressure_tensor_acf.py`.

The integrator core itself is not part of the provided sources (only its
test suite is), so the data model and the operations below are modelled
from the specification document (its sections are cited on each
definition), with the exact error messages taken from the test suite.
-/

namespace Espresso

/-- Modelled from the spec: 3-component vector of the particle-storage
collaborator (positions, velocities, forces); reals are embedded as `ℚ`. -/
structure Vec3 where
  x : ℚ
  y : ℚ
  z : ℚ
deriving DecidableEq, Repr

/-- Modelled from the spec: `ParticleState` owned by the particle-storage
collaborator — id, position, velocity, force (§3). -/
structure Particle where
  id : ℕ
  pos : Vec3
  vel : Vec3
  force : Vec3
deriving DecidableEq, Repr

/-- Modelled from the spec: the shape collaborator (§6).  The test suite
uses half-space walls `Wall(normal, dist)`. -/
inductive Shape where
  | Wall (normal : Vec3) (dist : ℚ)
deriving DecidableEq, Repr

/-- Modelled from the spec: `signed_distance(position) -> float`, sign
convention: negative = inside/behind the surface (§6); for a wall the
signed distance is the projection on the normal minus the wall offset. -/
def signedDistance : Shape → Vec3 → ℚ
  | .Wall n d, p => n.x * p.x + n.y * p.y + n.z * p.z - d

/-- Modelled from the spec: `Constraint`:
`{shape, particle_type, penetrable : bool}` (§3). -/
structure Constraint where
  shape : Shape
  particle_type : ℕ
  penetrable : Bool
deriving DecidableEq, Repr

/-- Modelled from the spec: the closed set of thermostat kinds (§3). -/
inductive ThermostatKind where
  | Langevin
  | Brownian
  | NPT
  | LatticeFluidCoupled
  | Stokesian
deriving DecidableEq, Repr

/-- Modelled from the spec: the closed set of integration schemes (§3). -/
inductive SchemeKind where
  | VelocityVerlet
  | BrownianDynamics
  | IsotropicNPT
  | StokesianDynamics
  | SteepestDescent
deriving DecidableEq, Repr

/-- Modelled from the spec: `LeesEdwardsProtocol`: tagged variant
`{Off, LinearShear{shear_velocity, initial_pos_offset, time_0}}` (§3).
An unset protocol is `Option.none` at the use site. -/
inductive LEProtocol where
  | Off
  | LinearShear (shear_velocity initial_pos_offset time_0 : ℚ)
deriving DecidableEq, Repr

/-- Modelled from the spec: the error taxonomy of §7. -/
inductive IntegratorError where
  | InvalidParameter (msg : String)
  | MissingOrUnknownParameter (required given missing : List String)
  | ConflictingOptions (msg : String)
  | ConfigurationIncomplete (param : String)
  | IncompatibleConfiguration (reason : String)
  | ConstraintViolation (particle_id : ℕ) (dist : ℚ)
deriving DecidableEq, Repr

/-- Modelled from the spec: the session state — Configuration Registry
(time step, skin, periodicity), Thermostat Set, Constraint Set, current
IntegrationScheme, Lees-Edwards protocol, particle storage (§2, §3).
`forceCalls` counts invocations of the delegated force evaluator
(the spec's "force-evaluator call counter", §8). -/
structure SimState where
  time_step : ℚ
  skin : Option ℚ
  periodicity : Bool × Bool × Bool
  thermostats : List ThermostatKind
  scheme : SchemeKind
  lees : Option LEProtocol
  constraints : List Constraint
  particles : List Particle
  forceCalls : ℕ
deriving DecidableEq, Repr

/-- Modelled from the spec: the delegated collaborators of §6 — the
force/potential evaluator (a per-particle force as a function of the
whole particle set) and the per-scheme numeric integration kernel.
Both are out of scope for the integrator itself, so they are parameters
of the step executor. -/
structure Collaborators where
  forceOf : List Particle → Particle → Vec3
  kernel : SchemeKind → ℚ → List Particle → List Particle

/-- Modelled from the spec: `compute_forces()` — forces updated for all
particles by the delegated evaluator (§6); positions, velocities and ids
are untouched, and the force-evaluator call counter advances. -/
def computeForces (C : Collaborators) (s : SimState) : SimState :=
  { s with
    particles := s.particles.map (fun p => { p with force := C.forceOf s.particles p })
    forceCalls := s.forceCalls + 1 }

/-- Modelled from the spec: the constraint-violation scan over one
constraint — the first particle with `penetrable=false` and negative
signed distance, together with the measured distance (§4.4 step 4). -/
def findViolatingParticle (c : Constraint) : List Particle → Option (ℕ × ℚ)
  | [] => none
  | p :: ps =>
    if c.penetrable = false ∧ signedDistance c.shape p.pos < 0 then
      some (p.id, signedDistance c.shape p.pos)
    else findViolatingParticle c ps

/-- Modelled from the spec: the constraint-violation check — for every
active constraint, the signed distance of every particle to the shape is
computed; the first non-penetrable penetration is reported (§4.4 step 4). -/
def firstViolation : List Constraint → List Particle → Option (ℕ × ℚ)
  | [], _ => none
  | c :: cs, ps =>
    match findViolatingParticle c ps with
    | some r => some r
    | none => firstViolation cs ps

/-- Modelled from the spec: the scheme/thermostat compatibility check — a
lookup against the fixed table of §4.4 step 3, returning the offending
rule on violation.  Error texts are the ones the test suite expects. -/
def compatCheck (scheme : SchemeKind) (ts : List ThermostatKind)
    (per : Bool × Bool × Bool) (lees : Option LEProtocol) : Option String :=
  match scheme with
  | .VelocityVerlet =>
    if ThermostatKind.NPT ∈ ts ∨ ThermostatKind.Brownian ∈ ts ∨ ThermostatKind.Stokesian ∈ ts then
      some "The VV integrator is incompatible with the currently active combination of thermostats"
    else none
  | .BrownianDynamics =>
    if ThermostatKind.Brownian ∈ ts then
      if ∀ k ∈ ts, k = ThermostatKind.Brownian then none
      else some "The BD integrator is incompatible with the currently active combination of thermostats"
    else some "The BD integrator requires the BD thermostat"
  | .IsotropicNPT =>
    if ThermostatKind.NPT ∈ ts then
      match lees with
      | some _ => some "The NpT integrator cannot use Lees-Edwards"
      | none => none
    else some "The NpT integrator requires the NpT thermostat"
  | .StokesianDynamics =>
    if ThermostatKind.Stokesian ∈ ts then
      if per = (false, false, false) then none
      else some "The SD integrator requires periodicity (False, False, False)"
    else some "The SD integrator requires the SD thermostat"
  | .SteepestDescent =>
    if ts = [] then none
    else some "The steepest descent integrator is incompatible with thermostats"

/-- Modelled from the spec: one full pipeline step — compute forces, then
apply the delegated integration update for the current scheme (§4.4 step 4). -/
def fullStep (C : Collaborators) (s : SimState) : SimState :=
  let s1 := computeForces C s
  { s1 with particles := C.kernel s1.scheme s1.time_step s1.particles }

/-- Iterate of `fullStep`, used to state that a faulted `run` keeps
exactly the already-applied steps (no rollback). -/
def fullStepIter (C : Collaborators) : ℕ → SimState → SimState
  | 0, s => s
  | n + 1, s => fullStepIter C n (fullStep C s)

/-- Modelled from the spec: the per-step pipeline, repeated `steps` times —
force computation, integration update, then constraint-violation check;
the first violation aborts the remaining steps, keeping the state of the
already-applied steps (§4.4 step 4). -/
def stepLoop (C : Collaborators) : ℕ → SimState → Option IntegratorError × SimState
  | 0, s => (none, s)
  | n + 1, s =>
    let s1 := fullStep C s
    match firstViolation s1.constraints s1.particles with
    | some (pid, d) => (some (.ConstraintViolation pid d), s1)
    | none => stepLoop C n s1

/-- Modelled from the spec: the Step Executor `run(steps, recalc_forces,
reuse_forces)` (§4.4): 1. parameter validation (`steps < 0`, conflicting
force flags), 2. mandatory-configuration validation (skin), 3. the
scheme/thermostat compatibility check, 4. the per-step pipeline — run once
with no positional advancement when `steps = 0`, solely to trigger the
post-force constraint check.  The result pairs the first detected error
(or `none` on success) with the final state. -/
def run (C : Collaborators) (s : SimState) (steps : ℤ)
    (recalc_forces reuse_forces : Bool) : Option IntegratorError × SimState :=
  if steps < 0 then (some (.InvalidParameter "steps must be positive"), s)
  else if recalc_forces && reuse_forces then
    (some (.ConflictingOptions "cannot reuse old forces and recalculate forces"), s)
  else if s.skin = none then
    (some (.ConfigurationIncomplete "skin"), s)
  else
    match compatCheck s.scheme s.thermostats s.periodicity s.lees with
    | some reason => (some (.IncompatibleConfiguration reason), s)
    | none =>
      if steps = 0 then
        let s1 := computeForces C s
        match firstViolation s1.constraints s1.particles with
        | some (pid, d) => (some (.ConstraintViolation pid d), s1)
        | none => (none, s1)
      else stepLoop C steps.toNat s

/-- Modelled from the spec: observable queries between runs (e.g.
`analysis.energy()`) independently re-check constraint violation on the
current positions and fail the same way (§4.4 step 5). -/
def energyCheck (s : SimState) : Option IntegratorError :=
  match firstViolation s.constraints s.particles with
  | some (pid, d) => some (.ConstraintViolation pid d)
  | none => none

/-- Modelled from the spec: `set_time_step(value)` fails with
`InvalidParameter` unless `value > 0` (§4.1). -/
def set_time_step (s : SimState) (v : ℚ) : Except IntegratorError SimState :=
  if 0 < v then .ok { s with time_step := v }
  else .error (.InvalidParameter "time_step must be > 0.")

/-- Modelled from the spec: the declared required-parameter set of each
integration scheme (§3, §4.3). -/
def schemeRequiredKeys : SchemeKind → List String
  | .VelocityVerlet => []
  | .BrownianDynamics => []
  | .IsotropicNPT => ["ext_pressure", "piston"]
  | .StokesianDynamics => ["viscosity", "radii"]
  | .SteepestDescent => ["f_max", "gamma", "max_displacement"]

/-- Modelled from the spec: exact-key-set matching for scheme setters —
extra/missing key sets are computed explicitly, and a mismatch fails with
`MissingOrUnknownParameter` naming the required list, the keys given, and
the missing keys (§4.3, §9). -/
def checkRequiredKeys (required given : List String) : Option IntegratorError :=
  let missing := required.filter (fun k => !(given.contains k))
  let unknown := given.filter (fun k => !(required.contains k))
  if missing = [] ∧ unknown = [] then none
  else some (.MissingOrUnknownParameter required given missing)

/-- Modelled from the spec: a scheme-selection setter — validates the
required parameter keys, then stores the variant in O(1), discarding prior
scheme-local state; no scheme/thermostat compatibility is consulted here
(that happens in `run`, §4.3/§4.4). -/
def set_scheme (s : SimState) (k : SchemeKind) (given : List String) :
    Except IntegratorError SimState :=
  match checkRequiredKeys (schemeRequiredKeys k) given with
  | some e => .error e
  | none => .ok { s with scheme := k }

/-- Modelled from the spec: `set_steepest_descent`, required keys
`{f_max, gamma, max_displacement}` (§4.3). -/
def set_steepest_descent (s : SimState) (given : List String) :
    Except IntegratorError SimState :=
  set_scheme s .SteepestDescent given

/-- Modelled from the spec: `turn_off()` empties the thermostat set
unconditionally and never fails (§4.2). -/
def turn_off (s : SimState) : SimState :=
  { s with thermostats := [] }

/-- A reported `(particle id, distance)` pair is a genuine violation in
state `s`: some non-penetrable constraint and some particle with that id
realise exactly that negative signed distance. -/
def isViolationOf (s : SimState) (pid : ℕ) (d : ℚ) : Prop :=
  ∃ c ∈ s.constraints, ∃ p ∈ s.particles,
    c.penetrable = false ∧ p.id = pid ∧ signedDistance c.shape p.pos = d ∧ d < 0

/-- Concrete collaborators used to instantiate theorems: zero forces and
an identity integration kernel. -/
def trivialCollab : Collaborators where
  forceOf := fun _ _ => ⟨0, 0, 0⟩
  kernel := fun _ _ ps => ps

/-- The test suite's base configuration: `time_step = 0.01`,
`skin = 0.4`, full periodicity, one particle at the origin, velocity
Verlet, no thermostat, no Lees-Edwards, no constraints. -/
def baseState : SimState where
  time_step := 1 / 100
  skin := some (2 / 5)
  periodicity := (true, true, true)
  thermostats := []
  scheme := .VelocityVerlet
  lees := none
  constraints := []
  particles := [⟨0, ⟨0, 0, 0⟩, ⟨0, 0, 0⟩, ⟨0, 0, 0⟩⟩]
  forceCalls := 0

/-- The base configuration before `cell_system.skin` has been assigned. -/
def noSkinState : SimState :=
  { baseState with skin := none }

/-- `test_vv_integrator`: velocity Verlet scheme with a Brownian
thermostat active. -/
def vvBrownianState : SimState :=
  { baseState with thermostats := [.Brownian] }

/-- `test_npt_integrator`: isotropic NpT scheme with the NpT thermostat. -/
def nptState : SimState :=
  { baseState with scheme := .IsotropicNPT, thermostats := [.NPT] }

/-- `test_00_common_interface`: a non-penetrable wall with normal
`(0, 0, 1)` at distance 100, violated by the particle at the origin. -/
def wallState : SimState :=
  { baseState with constraints := [⟨.Wall ⟨0, 0, 1⟩ 100, 0, false⟩] }


/-- C5: For every scheme, thermostat set, and steps value, calling `run`
with `recalc_forces=true` and `reuse_forces=true` together fails with
`ConflictingOptions` and executes no step (the returned state is the input
state); as the statement holds for every session state, the parameter
validation is independent of scheme/thermostat state and precedes the
scheme compatibility checks. -/
theorem run_conflicting_flags (C : Collaborators) (s : SimState) (n : ℕ) :
    run C s n true true =
      (some (.ConflictingOptions "cannot reuse old forces and recalculate forces"), s) := by
  have h0 : ¬ ((n : ℤ) < 0) := by omega
  simp [run, h0]

/-- C8: For every `steps < 0`, `run` fails with `InvalidParameter` and the
state — in particular the force-evaluator call counter — is unchanged, so
no force computation occurs during such a call. -/
theorem run_negative_steps (C : Collaborators) (s : SimState) (steps : ℤ)
    (recalc_forces reuse_forces : Bool) (h : steps < 0) :
    run C s steps recalc_forces reuse_forces =
      (some (.InvalidParameter "steps must be positive"), s) ∧
    (run C s steps recalc_forces reuse_forces).2.forceCalls = s.forceCalls := by
  constructor
  · simp [run, h]
  · simp [run, h]

/-- C8 witness: `run(-1)` on the base configuration. -/
theorem run_negative_steps_witness :
    (-1 : ℤ) < 0 ∧
    (run trivialCollab baseState (-1) false false =
      (some (.InvalidParameter "steps must be positive"), baseState) ∧
     (run trivialCollab baseState (-1) false false).2.forceCalls = baseState.forceCalls) :=
  ⟨by decide, run_negative_steps trivialCollab baseState (-1) false false (by decide)⟩

/-- C4: For every step count (including 0), calling `run` with default
force flags while `skin` is unset fails with `ConfigurationIncomplete`
naming skin, and the state is unchanged — the validation happens
unconditionally before any stepping, independent of step count. -/
theorem run_requires_skin (C : Collaborators) (s : SimState) (n : ℕ)
    (h : s.skin = none) :
    run C s n false false = (some (.ConfigurationIncomplete "skin"), s) := by
  have h0 : ¬ ((n : ℤ) < 0) := by omega
  simp [run, h0, h]

/-- C4 witness: `run(0)` with skin unset. -/
theorem run_requires_skin_witness :
    noSkinState.skin = none ∧
    run trivialCollab noSkinState 0 false false =
      (some (.ConfigurationIncomplete "skin"), noSkinState) :=
  ⟨rfl, run_requires_skin trivialCollab noSkinState 0 rfl⟩

/-- C7: For every value `≤ 0`, `set_time_step` fails with
`InvalidParameter`; for every value `> 0` it succeeds and a subsequent
read of the time step returns exactly that value. -/
theorem set_time_step_spec (s : SimState) (v : ℚ) :
    (v ≤ 0 → set_time_step s v = .error (.InvalidParameter "time_step must be > 0.")) ∧
    (0 < v → ∃ s', set_time_step s v = .ok s' ∧ s'.time_step = v) := by
  constructor
  · intro h
    have h' : ¬ 0 < v := not_lt.mpr h
    simp [set_time_step, h']
  · intro h
    refine ⟨{ s with time_step := v }, ?_, rfl⟩
    simp [set_time_step, h]

/-- C7 witness: `set_time_step(-2)` fails; `set_time_step(0.01)` succeeds
and stores exactly `0.01`. -/
theorem set_time_step_spec_witness :
    ((-2 : ℚ) ≤ 0 ∧
     set_time_step baseState (-2) = .error (.InvalidParameter "time_step must be > 0.")) ∧
    ((0 : ℚ) < 1 / 100 ∧
     ∃ s', set_time_step baseState (1 / 100) = .ok s' ∧ s'.time_step = 1 / 100) :=
  ⟨⟨by norm_num, (set_time_step_spec baseState (-2)).1 (by norm_num)⟩,
   ⟨by norm_num, (set_time_step_spec baseState (1 / 100)).2 (by norm_num)⟩⟩

/-- C9: Every scheme-selection setter called with its exact declared
required key set succeeds on every session state — regardless of the
active thermostat set, periodicity, or Lees-Edwards state, all of which
are preserved untouched; compatibility is checked only by `run`, never by
the setter itself. -/
theorem scheme_setters_unconditional (s : SimState) (k : SchemeKind) :
    ∃ s', set_scheme s k (schemeRequiredKeys k) = .ok s' ∧
      s'.scheme = k ∧ s'.thermostats = s.thermostats ∧
      s'.periodicity = s.periodicity ∧ s'.lees = s.lees := by
  refine ⟨{ s with scheme := k }, ?_, rfl, rfl, rfl, rfl⟩
  have h : checkRequiredKeys (schemeRequiredKeys k) (schemeRequiredKeys k) = none := by
    cases k <;> rfl
  simp [set_scheme, h]

/-- C10: `turn_off` on the thermostat set is a total operation (it never
fails) that empties the set unconditionally; it is idempotent, and on an
already-empty thermostat set it makes no observable change at all. -/
theorem turn_off_idempotent (s : SimState) :
    (turn_off s).thermostats = [] ∧
    turn_off (turn_off s) = turn_off s ∧
    (s.thermostats = [] → turn_off s = s) := by
  refine ⟨rfl, rfl, fun h => ?_⟩
  cases s
  simp_all [turn_off]

/-- C10 witness: `turn_off` on the base configuration, whose thermostat
set is already empty. -/
theorem turn_off_idempotent_witness :
    (turn_off baseState).thermostats = [] ∧ turn_off baseState = baseState :=
  ⟨(turn_off_idempotent baseState).1, (turn_off_idempotent baseState).2.2 rfl⟩

/-- C1: For every configuration whose scheme/thermostat/periodicity/
Lees-Edwards combination violates the fixed compatibility table, `run`
fails with `IncompatibleConfiguration` naming the offending rule, for
every step count including 0, and returns the input state unchanged — so
the check precedes any force computation or position update and no
partial step is applied on a rejected configuration. -/
theorem run_compat_check_precedes_stepping (C : Collaborators) (s : SimState)
    (n : ℕ) (reason : String) (hskin : s.skin ≠ none)
    (hc : compatCheck s.scheme s.thermostats s.periodicity s.lees = some reason) :
    run C s n false false = (some (.IncompatibleConfiguration reason), s) := by
  have h0 : ¬ ((n : ℤ) < 0) := by omega
  simp [run, h0, hskin, hc]

/-- C1 witness: velocity Verlet with an active Brownian thermostat is
rejected by the table, and `run(0)` fails accordingly with no state
change. -/
theorem run_compat_check_precedes_stepping_witness :
    (vvBrownianState.skin ≠ none ∧
     compatCheck vvBrownianState.scheme vvBrownianState.thermostats
       vvBrownianState.periodicity vvBrownianState.lees =
       some "The VV integrator is incompatible with the currently active combination of thermostats") ∧
    run trivialCollab vvBrownianState 0 false false =
      (some (.IncompatibleConfiguration
        "The VV integrator is incompatible with the currently active combination of thermostats"),
       vvBrownianState) :=
  ⟨⟨by decide, by decide⟩,
   run_compat_check_precedes_stepping trivialCollab vvBrownianState 0 _
     (by decide) (by decide)⟩

/-- The per-step pipeline never faults when the constraint set is empty:
the loop runs all requested steps and reports no error. -/
theorem stepLoop_no_constraints (C : Collaborators) (n : ℕ) :
    ∀ s : SimState, s.constraints = [] → (stepLoop C n s).1 = none := by
  induction n with
  | zero => intro s _; rfl
  | succ n ih =>
    intro s h
    have h1 : (fullStep C s).constraints = s.constraints := rfl
    have h2 : firstViolation (fullStep C s).constraints (fullStep C s).particles = none := by
      rw [h1, h]; rfl
    simp only [stepLoop, h2]
    exact ih (fullStep C s) (h1.trans h)

/-- C2: With the isotropic NpT scheme current and the NpT thermostat
active (and no constraints), `run` fails with `IncompatibleConfiguration`
whenever any Lees-Edwards protocol variant is set — including the
explicit `Off` variant — with no state change; with the protocol unset
(`none`), the same configuration runs successfully for every step count. -/
theorem npt_lees_edwards_exclusion (C : Collaborators) (s : SimState)
    (hscheme : s.scheme = .IsotropicNPT)
    (hth : ThermostatKind.NPT ∈ s.thermostats)
    (hskin : s.skin ≠ none) (hcon : s.constraints = []) :
    (∀ (p : LEProtocol) (n : ℕ),
      run C { s with lees := some p } n false false =
        (some (.IncompatibleConfiguration "The NpT integrator cannot use Lees-Edwards"),
         { s with lees := some p })) ∧
    (∀ n : ℕ, (run C { s with lees := none } n false false).1 = none) := by
  constructor
  · intro p n
    have h0 : ¬ ((n : ℤ) < 0) := by omega
    have hc : compatCheck s.scheme s.thermostats s.periodicity (some p) =
        some "The NpT integrator cannot use Lees-Edwards" := by
      simp [compatCheck, hscheme, hth]
    simp [run, h0, hskin, hc]
  · intro n
    have h0 : ¬ ((n : ℤ) < 0) := by omega
    have hc : compatCheck s.scheme s.thermostats s.periodicity none = none := by
      simp [compatCheck, hscheme, hth]
    rcases Nat.eq_zero_or_pos n with hn | hn
    · subst hn
      have hfv : firstViolation
          (computeForces C { s with lees := none }).constraints
          (computeForces C { s with lees := none }).particles = none := by
        have : (computeForces C { s with lees := none }).constraints = s.constraints := rfl
        rw [this, hcon]; rfl
      simp [run, hskin, hc, hfv]
    · have hne : ¬ ((n : ℤ) = 0) := by omega
      have hstep : (stepLoop C n { s with lees := none }).1 = none :=
        stepLoop_no_constraints C _ _ hcon
      simp [run, h0, hne, hskin, hc, hstep]

/-- C2 witness: the NpT configuration with `Off` set is rejected at
`run(0)`; the same configuration with the protocol unset runs
successfully. -/
theorem npt_lees_edwards_exclusion_witness :
    (nptState.scheme = .IsotropicNPT ∧ ThermostatKind.NPT ∈ nptState.thermostats ∧
     nptState.skin ≠ none ∧ nptState.constraints = []) ∧
    run trivialCollab { nptState with lees := some .Off } 0 false false =
      (some (.IncompatibleConfiguration "The NpT integrator cannot use Lees-Edwards"),
       { nptState with lees := some .Off }) ∧
    (run trivialCollab { nptState with lees := none } 0 false false).1 = none :=
  ⟨⟨rfl, by decide, by decide, rfl⟩,
   (npt_lees_edwards_exclusion trivialCollab nptState rfl (by decide) (by decide) rfl).1 .Off 0,
   (npt_lees_edwards_exclusion trivialCollab nptState rfl (by decide) (by decide) rfl).2 0⟩

/-- C6: Calling `set_steepest_descent` with a key set that does not
exactly match the declared required keys fails with
`MissingOrUnknownParameter` carrying the required key list, the keys
actually given, and a missing list holding exactly the required keys that
were not given. -/
theorem steepest_descent_key_mismatch (s : SimState) (given : List String)
    (h : ¬ ∀ k, k ∈ schemeRequiredKeys SchemeKind.SteepestDescent ↔ k ∈ given) :
    ∃ missing,
      set_steepest_descent s given =
        .error (.MissingOrUnknownParameter
          (schemeRequiredKeys SchemeKind.SteepestDescent) given missing) ∧
      ∀ k, k ∈ missing ↔
        (k ∈ schemeRequiredKeys SchemeKind.SteepestDescent ∧ k ∉ given) := by
  refine ⟨(schemeRequiredKeys SchemeKind.SteepestDescent).filter
    (fun k => !(given.contains k)), ?_, ?_⟩
  · have hne : ¬ ((schemeRequiredKeys SchemeKind.SteepestDescent).filter
        (fun k => !(given.contains k)) = [] ∧
        given.filter
          (fun k => !((schemeRequiredKeys SchemeKind.SteepestDescent).contains k)) = []) := by
      rintro ⟨h1, h2⟩
      apply h
      intro k
      constructor
      · intro hk
        have := List.filter_eq_nil_iff.mp h1 k hk
        simpa using this
      · intro hk
        have := List.filter_eq_nil_iff.mp h2 k hk
        simpa using this
    simp only [set_steepest_descent, set_scheme, checkRequiredKeys]
    rw [if_neg hne]
  · intro k
    simp [List.mem_filter]

/-- C6 witness: supplying `{f_max, gamma, max_d}` instead of
`{f_max, gamma, max_displacement}` fails with exactly
`max_displacement` missing. -/
theorem steepest_descent_key_mismatch_witness :
    (¬ ∀ k, k ∈ schemeRequiredKeys SchemeKind.SteepestDescent ↔
        k ∈ ["f_max", "gamma", "max_d"]) ∧
    (∃ missing,
      set_steepest_descent baseState ["f_max", "gamma", "max_d"] =
        .error (.MissingOrUnknownParameter
          (schemeRequiredKeys SchemeKind.SteepestDescent)
          ["f_max", "gamma", "max_d"] missing) ∧
      ∀ k, k ∈ missing ↔
        (k ∈ schemeRequiredKeys SchemeKind.SteepestDescent ∧
         k ∉ ["f_max", "gamma", "max_d"])) ∧
    set_steepest_descent baseState ["f_max", "gamma", "max_d"] =
      .error (.MissingOrUnknownParameter ["f_max", "gamma", "max_displacement"]
        ["f_max", "gamma", "max_d"] ["max_displacement"]) := by
  have h : ¬ ∀ k, k ∈ schemeRequiredKeys SchemeKind.SteepestDescent ↔
      k ∈ ["f_max", "gamma", "max_d"] := by
    intro hall
    exact absurd ((hall "max_displacement").mp (by decide)) (by decide)
  exact ⟨h, steepest_descent_key_mismatch baseState _ h, rfl⟩

/-- Soundness of the per-constraint scan: a reported pair comes from an
actual particle of the list at an actual negative signed distance. -/
theorem findViolatingParticle_sound (c : Constraint) :
    ∀ (ps : List Particle) (pid : ℕ) (d : ℚ),
      findViolatingParticle c ps = some (pid, d) →
      ∃ p ∈ ps, c.penetrable = false ∧ p.id = pid ∧
        signedDistance c.shape p.pos = d ∧ d < 0 := by
  intro ps
  induction ps with
  | nil => intro pid d h; simp [findViolatingParticle] at h
  | cons p ps ih =>
    intro pid d h
    rw [findViolatingParticle] at h
    by_cases hc : c.penetrable = false ∧ signedDistance c.shape p.pos < 0
    · rw [if_pos hc] at h
      simp only [Option.some.injEq, Prod.mk.injEq] at h
      refine ⟨p, List.mem_cons_self p ps, hc.1, h.1, h.2, ?_⟩
      rw [← h.2]; exact hc.2
    · rw [if_neg hc] at h
      obtain ⟨q, hq, hrest⟩ := ih pid d h
      exact ⟨q, List.mem_cons_of_mem _ hq, hrest⟩

/-- Completeness of the per-constraint scan: a non-penetrable constraint
with some particle at negative signed distance is detected. -/
theorem findViolatingParticle_isSome (c : Constraint) (hpen : c.penetrable = false) :
    ∀ (ps : List Particle) (p : Particle), p ∈ ps →
      signedDistance c.shape p.pos < 0 → (findViolatingParticle c ps).isSome := by
  intro ps
  induction ps with
  | nil => intro p hp; simp at hp
  | cons q ps ih =>
    intro p hp hd
    rw [findViolatingParticle]
    by_cases hc : c.penetrable = false ∧ signedDistance c.shape q.pos < 0
    · rw [if_pos hc]; rfl
    · rw [if_neg hc]
      rcases List.mem_cons.mp hp with h | h
      · subst h; exact absurd ⟨hpen, hd⟩ hc
      · exact ih p h hd

/-- Soundness of the whole constraint-violation check: the reported
particle id and distance belong to a genuine non-penetrable penetration. -/
theorem firstViolation_sound :
    ∀ (cs : List Constraint) (ps : List Particle) (pid : ℕ) (d : ℚ),
      firstViolation cs ps = some (pid, d) →
      ∃ c ∈ cs, ∃ p ∈ ps, c.penetrable = false ∧ p.id = pid ∧
        signedDistance c.shape p.pos = d ∧ d < 0 := by
  intro cs
  induction cs with
  | nil => intro ps pid d h; simp [firstViolation] at h
  | cons c cs ih =>
    intro ps pid d h
    rw [firstViolation] at h
    cases hf : findViolatingParticle c ps with
    | some r =>
      simp only [hf] at h
      obtain ⟨p, hp, hrest⟩ := findViolatingParticle_sound c ps pid d (hf.trans h)
      exact ⟨c, List.mem_cons_self c cs, p, hp, hrest⟩
    | none =>
      simp only [hf] at h
      obtain ⟨c', hc', rest⟩ := ih ps pid d h
      exact ⟨c', List.mem_cons_of_mem _ hc', rest⟩

/-- Completeness of the whole constraint-violation check. -/
theorem firstViolation_isSome :
    ∀ (cs : List Constraint) (ps : List Particle) (c : Constraint) (p : Particle),
      c ∈ cs → p ∈ ps → c.penetrable = false →
      signedDistance c.shape p.pos < 0 → (firstViolation cs ps).isSome := by
  intro cs
  induction cs with
  | nil => intro ps c p hc; simp at hc
  | cons c0 cs ih =>
    intro ps c p hc hp hpen hd
    rw [firstViolation]
    cases hf : findViolatingParticle c0 ps with
    | some r => simp [hf]
    | none =>
      simp only [hf]
      rcases List.mem_cons.mp hc with h | h
      · subst h
        have hs := findViolatingParticle_isSome c hpen ps p hp hd
        rw [hf] at hs; simp at hs
      · exact ih ps c p h hp hpen hd

/-- The per-constraint scan ignores forces: mapping a force-only update
over the particles leaves its result unchanged. -/
theorem findViolatingParticle_map_force (c : Constraint) (g : Particle → Particle)
    (hid : ∀ p, (g p).id = p.id) (hpos : ∀ p, (g p).pos = p.pos) :
    ∀ ps : List Particle,
      findViolatingParticle c (ps.map g) = findViolatingParticle c ps := by
  intro ps
  induction ps with
  | nil => rfl
  | cons p ps ih =>
    simp only [List.map_cons, findViolatingParticle, hpos, hid, ih]

/-- The constraint-violation check ignores forces. -/
theorem firstViolation_map_force (g : Particle → Particle)
    (hid : ∀ p, (g p).id = p.id) (hpos : ∀ p, (g p).pos = p.pos) :
    ∀ (cs : List Constraint) (ps : List Particle),
      firstViolation cs (ps.map g) = firstViolation cs ps := by
  intro cs
  induction cs with
  | nil => intro ps; rfl
  | cons c cs ih =>
    intro ps
    rw [firstViolation, firstViolation,
      findViolatingParticle_map_force c g hid hpos, ih]

/-- Computing forces changes neither the constraint set nor the outcome
of the constraint-violation check (positions and ids are untouched). -/
theorem firstViolation_computeForces (C : Collaborators) (s : SimState) :
    firstViolation (computeForces C s).constraints (computeForces C s).particles =
      firstViolation s.constraints s.particles := by
  show firstViolation s.constraints
      (s.particles.map (fun p => { p with force := C.forceOf s.particles p })) =
    firstViolation s.constraints s.particles
  exact firstViolation_map_force
    (fun p => { p with force := C.forceOf s.particles p })
    (fun _ => rfl) (fun _ => rfl) s.constraints s.particles

/-- A faulted step loop has applied exactly some positive prefix of the
requested steps — the returned state is a `fullStep` iterate of the input
state (already-applied steps are kept, the rest are aborted) — and the
error is the constraint violation detected in that state. -/
theorem stepLoop_error_characterisation (C : Collaborators) :
    ∀ (n : ℕ) (s : SimState) (e : IntegratorError) (s' : SimState),
      stepLoop C n s = (some e, s') →
      ∃ k, k < n ∧ s' = fullStepIter C (k + 1) s ∧
        ∃ pid d, e = .ConstraintViolation pid d ∧
          firstViolation s'.constraints s'.particles = some (pid, d) := by
  intro n
  induction n with
  | zero => intro s e s' h; exact absurd h (by simp [stepLoop])
  | succ n ih =>
    intro s e s' h
    rw [stepLoop] at h
    cases hf : firstViolation (fullStep C s).constraints (fullStep C s).particles with
    | some r =>
      obtain ⟨pid, d⟩ := r
      simp only [hf, Prod.mk.injEq, Option.some.injEq] at h
      obtain ⟨he, hs⟩ := h
      subst hs
      exact ⟨0, Nat.succ_pos n, rfl, pid, d, he.symm, hf⟩
    | none =>
      simp only [hf] at h
      obtain ⟨k, hk, hs', rest⟩ := ih (fullStep C s) e s' h
      exact ⟨k + 1, by omega, hs', rest⟩

/-- C3: In a validated configuration (skin set, compatibility table
satisfied) in which some particle penetrates some non-penetrable
constraint, `run(0)` fails with `ConstraintViolation` reporting the id
and measured distance of a genuinely violating particle, having only
computed forces; `analysis.energy`'s independent check fails the same way
on the current positions without `run` having been called; and whenever a
positive-step `run` faults, exactly some positive prefix of the requested
steps has been applied and kept (no rollback), the remaining steps are
aborted, and the reported id and distance are a genuine violation of the
returned state. -/
theorem constraint_violation_detection (C : Collaborators) (s : SimState)
    (hskin : s.skin ≠ none)
    (hcompat : compatCheck s.scheme s.thermostats s.periodicity s.lees = none)
    (hviol : ∃ c ∈ s.constraints, ∃ p ∈ s.particles,
      c.penetrable = false ∧ signedDistance c.shape p.pos < 0) :
    (∃ pid d,
      run C s 0 false false =
        (some (.ConstraintViolation pid d), computeForces C s) ∧
      isViolationOf s pid d) ∧
    (∃ pid d, energyCheck s = some (.ConstraintViolation pid d) ∧
      isViolationOf s pid d) ∧
    (∀ (n : ℕ) (e : IntegratorError) (s' : SimState),
      run C s ((n : ℤ) + 1) false false = (some e, s') →
      ∃ k, k ≤ n ∧ s' = fullStepIter C (k + 1) s ∧
        ∃ pid d, e = .ConstraintViolation pid d ∧ isViolationOf s' pid d) := by
  obtain ⟨c, hc, p, hp, hpen, hd⟩ := hviol
  have hsome : (firstViolation s.constraints s.particles).isSome :=
    firstViolation_isSome s.constraints s.particles c p hc hp hpen hd
  obtain ⟨⟨pid, d⟩, hf⟩ := Option.isSome_iff_exists.mp hsome
  have hgen : isViolationOf s pid d := by
    obtain ⟨c', hc', p', hp', h1, h2, h3, h4⟩ :=
      firstViolation_sound s.constraints s.particles pid d hf
    exact ⟨c', hc', p', hp', h1, h2, h3, h4⟩
  refine ⟨⟨pid, d, ?_, hgen⟩, ⟨pid, d, ?_, hgen⟩, ?_⟩
  · have hf' : firstViolation (computeForces C s).constraints
        (computeForces C s).particles = some (pid, d) :=
      (firstViolation_computeForces C s).trans hf
    simp [run, hskin, hcompat, hf']
  · simp [energyCheck, hf]
  · intro n e s' h
    have h0 : ¬ ((n : ℤ) + 1 < 0) := by omega
    have hne : ¬ ((n : ℤ) + 1 = 0) := by omega
    have htn : ((n : ℤ) + 1).toNat = n + 1 := by omega
    rw [run, if_neg h0] at h
    simp only [Bool.and_self, Bool.false_eq_true, if_false] at h
    rw [if_neg hskin] at h
    rw [hcompat] at h
    rw [if_neg hne, htn] at h
    obtain ⟨k, hk, hs', pid', d', he, hfv⟩ :=
      stepLoop_error_characterisation C (n + 1) s e s' h
    refine ⟨k, by omega, hs', pid', d', he, ?_⟩
    obtain ⟨c', hc', p', hp', h1, h2, h3, h4⟩ :=
      firstViolation_sound s'.constraints s'.particles pid' d' hfv
    exact ⟨c', hc', p', hp', h1, h2, h3, h4⟩

/-- C3 witness: the particle at the origin behind the non-penetrable wall
at distance 100 — `run(0)` and the energy query both fail reporting a
genuine violation. -/
theorem constraint_violation_detection_witness :
    (wallState.skin ≠ none ∧
     compatCheck wallState.scheme wallState.thermostats wallState.periodicity
       wallState.lees = none ∧
     ∃ c ∈ wallState.constraints, ∃ p ∈ wallState.particles,
       c.penetrable = false ∧ signedDistance c.shape p.pos < 0) ∧
    (∃ pid d,
      run trivialCollab wallState 0 false false =
        (some (.ConstraintViolation pid d), computeForces trivialCollab wallState) ∧
      isViolationOf wallState pid d) ∧
    (∃ pid d, energyCheck wallState = some (.ConstraintViolation pid d) ∧
      isViolationOf wallState pid d) := by
  have h1 : wallState.skin ≠ none := by decide
  have h2 : compatCheck wallState.scheme wallState.thermostats
      wallState.periodicity wallState.lees = none := by decide
  have h3 : ∃ c ∈ wallState.constraints, ∃ p ∈ wallState.particles,
      c.penetrable = false ∧ signedDistance c.shape p.pos < 0 := by
    refine ⟨⟨.Wall ⟨0, 0, 1⟩ 100, 0, false⟩, List.mem_cons_self _ _,
      ⟨0, ⟨0, 0, 0⟩, ⟨0, 0, 0⟩, ⟨0, 0, 0⟩⟩, List.mem_cons_self _ _, rfl, ?_⟩
    norm_num [signedDistance]
  have hmain := constraint_violation_detection trivialCollab wallState h1 h2 h3
  exact ⟨⟨h1, h2, h3⟩, hmain.1, hmain.2.1⟩

end Espresso
